import Mathlib

/-!
Verification development for the BRIM customer-support drafting system
(`streamlit_app_supabase.py`). The claim-relevant operations are shallowly
embedded: embeddings are rational vectors, the pgvector distance operator and
the two external HTTP services (OpenAI embeddings, Claude generation) are
parameters, database tables are Lean lists, and SQL commit/rollback outcomes
are explicit booleans.
-/

namespace BrimCS

/-! ## String utilities (Python `in`, i.e. substring containment) -/

/-- Tests whether `needle` is an initial segment of `hay` (character lists). -/
def leadsWith : List Char → List Char → Bool
  | [], _ => true
  | _ :: _, [] => false
  | n :: ns, h :: hs => n == h && leadsWith ns hs

/-- Tests whether `needle` occurs as a contiguous run inside `hay`. -/
def occursIn : List Char → List Char → Bool
  | ns, [] => leadsWith ns []
  | ns, h :: hs => leadsWith ns (h :: hs) || occursIn ns hs

/-- Python's `needle in hay` on strings: substring containment. -/
def substrB (needle hay : String) : Bool :=
  occursIn needle.data hay.data

/-- Python `str.lower()`, applied characterwise (ASCII case mapping). -/
def strLower (s : String) : String :=
  ⟨s.data.map Char.toLower⟩

/-- Python `str.upper()`, applied characterwise (ASCII case mapping). -/
def strUpper (s : String) : String :=
  ⟨s.data.map Char.toUpper⟩

/-- Propositional form of substring containment used in specifications. -/
def containsStr (hay needle : String) : Prop :=
  ∃ pre post : String, hay = pre ++ needle ++ post

/-! ## Corpus rows (`brim_qa` table) and retrieval

`search_similar_qa` (source lines 138-171): embed the query; on embedding
failure return `[]`; otherwise run
`SELECT ... 1 - (embedding <=> :emb) AS similarity FROM brim_qa
 ORDER BY embedding <=> :emb LIMIT :top_k` and round each similarity to 4
decimal places. The pgvector `<=>` operator is modelled as a parameter
`dist`; the `ORDER BY` is modelled by a stable sort on ascending distance. -/

/-- A row of the `brim_qa` corpus table. -/
structure QARow where
  id : Nat
  question : String
  answer : String
  category : String
  platform : String
  embedding : List ℚ
  created_at : Int
deriving DecidableEq

/-- One retrieved entry as returned by `search_similar_qa`. -/
structure SimilarQA where
  id : Nat
  question : String
  answer : String
  category : String
  platform : String
  similarity : ℚ
deriving DecidableEq

/-- Python's `round(x, 4)`: rounding to 4 decimal places (nearest). -/
def round4 (q : ℚ) : ℚ :=
  (round (q * 10000) : ℚ) / 10000

/-- Ordering of corpus rows by ascending distance to the query embedding,
the `ORDER BY embedding <=> :emb` key. -/
def distLE (dist : List ℚ → List ℚ → ℚ) (emb : List ℚ) (a b : QARow) : Prop :=
  dist emb a.embedding ≤ dist emb b.embedding

instance (dist : List ℚ → List ℚ → ℚ) (emb : List ℚ) :
    DecidableRel (distLE dist emb) := fun a b =>
  inferInstanceAs (Decidable (dist emb a.embedding ≤ dist emb b.embedding))

instance (dist : List ℚ → List ℚ → ℚ) (emb : List ℚ) :
    IsTotal QARow (distLE dist emb) :=
  ⟨fun a b => le_total (dist emb a.embedding) (dist emb b.embedding)⟩

instance (dist : List ℚ → List ℚ → ℚ) (emb : List ℚ) :
    IsTrans QARow (distLE dist emb) :=
  ⟨fun _ _ _ hab hbc => le_trans hab hbc⟩

/-- The corpus sorted by ascending distance to the query embedding. -/
def ragOrder (dist : List ℚ → List ℚ → ℚ) (emb : List ℚ)
    (corpus : List QARow) : List QARow :=
  List.insertionSort (distLE dist emb) corpus

/-- `search_similar_qa(session, query_text, top_k)`: vector similarity
retrieval over `brim_qa`. `embed` models `get_embedding` (lines 113-132:
returns `None` on any API error), `dist` models pgvector `<=>`. -/
def search_similar_qa (embed : String → Option (List ℚ))
    (dist : List ℚ → List ℚ → ℚ) (corpus : List QARow)
    (query_text : String) (top_k : Nat) : List SimilarQA :=
  match embed query_text with
  | none => []
  | some emb =>
      ((ragOrder dist emb corpus).take top_k).map fun row =>
        { id := row.id
          question := row.question
          answer := row.answer
          category := row.category
          platform := row.platform
          similarity := round4 (1 - dist emb row.embedding) }

/-! ## Feedback loop (`add_correction_to_qa`, source lines 177-204)

Embeds the question; on embedding failure returns `False` with no insert.
Otherwise runs an `INSERT INTO brim_qa ...` and commits; on a persistence
error it rolls back and returns `False`. `insert_commits` models whether the
INSERT+COMMIT succeeds; `now` models SQL `NOW()`; the inserted row's `id` is
the database's autoincrement, modelled as `corpus.length + 1`. -/

def add_correction_to_qa (embed : String → Option (List ℚ))
    (insert_commits : Bool) (now : Int) (corpus : List QARow)
    (question corrected_answer category platform : String) :
    Bool × List QARow :=
  match embed question with
  | none => (false, corpus)
  | some emb =>
      if insert_commits then
        (true, corpus ++
          [{ id := corpus.length + 1
             question := question
             answer := corrected_answer
             category := category
             platform := platform
             embedding := emb
             created_at := now }])
      else
        (false, corpus)

/-! ## Interaction ledger rows -/

/-- A row of the `human_corrections` table. -/
structure CorrectionRow where
  ai_response_id : Nat
  corrected_response : String
  correction_notes : String
  corrected_by : String
deriving DecidableEq

/-- `save_correction` (lines 393-399): append a `human_corrections` row. -/
def save_correction (ledger : List CorrectionRow) (ai_response_id : Nat)
    (corrected_text notes corrected_by : String) : List CorrectionRow :=
  ledger ++ [{ ai_response_id := ai_response_id
               corrected_response := corrected_text
               correction_notes := notes
               corrected_by := corrected_by }]

/-- The user-visible message of the save-and-learn handler. -/
inductive SaveMsg where
  | learned
  | savedNotLearned
  | unchangedInfo
deriving DecidableEq

/-- Result state of the save-and-learn handler. -/
structure LearnOutcome where
  corpus : List QARow
  corrections : List CorrectionRow
  message : SaveMsg
deriving DecidableEq

/-- The `💾 修正を保存して学習` button handler (source lines 592-613): if the
edited text differs from the generated draft, save a `human_corrections` row
and then call `add_correction_to_qa`; otherwise do nothing and show an
informational message. -/
def save_and_learn (embed : String → Option (List ℚ)) (insert_commits : Bool)
    (now : Int) (corpus : List QARow) (corrections : List CorrectionRow)
    (response_id : Nat)
    (inquiry_text current_response edited_response category user_name : String) :
    LearnOutcome :=
  if edited_response ≠ current_response then
    let corrections1 :=
      save_correction corrections response_id edited_response "手動修正" user_name
    let r := add_correction_to_qa embed insert_commits now corpus
      inquiry_text edited_response category "修正データ"
    { corpus := r.2
      corrections := corrections1
      message := if r.1 then SaveMsg.learned else SaveMsg.savedNotLearned }
  else
    { corpus := corpus, corrections := corrections,
      message := SaveMsg.unchangedInfo }

/-! ## Product catalog (`BRIMProductDatabase`, source lines 210-305)

The catalog is a JSON object `products` mapping SKU keys to records; a Python
dict preserves insertion order, so it is modelled as an association list
`List (String × Product)`. A `usage` value is either a string or a list of
strings. -/

/-- A `usage` field value: a plain string or a list (comma-joined on render). -/
inductive UsageVal where
  | str (v : String)
  | arr (vs : List String)
deriving DecidableEq

/-- One product record from `brim_product_database.json`. -/
structure Product where
  product_name : String
  category : String
  specifications : List (String × String)
  usage : List (String × UsageVal)
  features_key_points : List String
  faq : List (String × String)
deriving DecidableEq

/-- `search_products(query)` (lines 219-227): keep products whose lowercased
name or category contains the lowercased query as a substring. -/
def search_products (db : List (String × Product)) (query : String) :
    List (String × Product) :=
  db.filter fun sp =>
    substrB (strLower query) (strLower sp.2.product_name) ||
      substrB (strLower query) (strLower sp.2.category)

/-- The fixed keyword list of `search_relevant_products` (lines 247-249). -/
def keywordList : List String :=
  ["COSMO", "SOL", "LUNA", "FLORA", "PANEL", "パネル", "クリップ",
   "ヒートマット", "HMT", "シェード", "ソケット", "タイマー",
   "cosmo", "sol", "luna", "flora", "panel"]

/-- Keyword scan of `search_relevant_products` (lines 254-257): for every
keyword whose uppercase form occurs in the uppercased query, accumulate the
products returned by `search_products(keyword)`. -/
def keywordMatches (db : List (String × Product)) (query : String) :
    List (String × Product) :=
  keywordList.foldl
    (fun acc kw =>
      if substrB (strUpper kw) (strUpper query) then acc ++ search_products db kw
      else acc)
    []

/-- Accumulator-based whitespace splitting over the character list (`cur`
holds the current word reversed). -/
def pyWordsAux : List Char → List Char → List String
  | cur, [] => if cur = [] then [] else [String.mk cur.reverse]
  | cur, c :: cs =>
      if c.isWhitespace then
        if cur = [] then pyWordsAux [] cs
        else String.mk cur.reverse :: pyWordsAux [] cs
      else pyWordsAux (c :: cur) cs

/-- Python `str.split()` with no separator: split on whitespace runs,
dropping empty pieces. -/
def pyWords (s : String) : List String :=
  pyWordsAux [] s.data

/-- Fallback scan (lines 260-265): a product matches when some word of the
lowercased query of length ≥ 2 occurs in its lowercased name; each product is
appended at most once (the loop breaks at the first matching word). -/
def fallbackMatches (db : List (String × Product)) (query : String) :
    List (String × Product) :=
  db.filter fun sp =>
    (pyWords (strLower query)).any fun w =>
      decide (2 ≤ w.length) && substrB w (strLower sp.2.product_name)

/-- The `found_products` list of `search_relevant_products` after the keyword
scan and, when that is empty, the fallback scan. -/
def foundProducts (db : List (String × Product)) (query : String) :
    List (String × Product) :=
  let fromKeywords := keywordMatches db query
  if fromKeywords.isEmpty then fallbackMatches db query else fromKeywords

/-- Deduplication by SKU with a `seen` set (lines 272-278), keeping first
occurrences in order. -/
def dedupeBySku (seen : List String) :
    List (String × Product) → List (String × Product)
  | [] => []
  | sp :: rest =>
      if sp.1 ∈ seen then dedupeBySku seen rest
      else sp :: dedupeBySku (sp.1 :: seen) rest

/-- The products actually rendered into the digest: deduplicated by SKU and
capped at 5 (`unique[:5]`, line 281). -/
def relevantProducts (db : List (String × Product)) (query : String) :
    List (String × Product) :=
  (dedupeBySku [] (foundProducts db query)).take 5

/-- Python `', '.join(vs)`. -/
def joinComma (vs : List String) : String :=
  String.intercalate ", " vs

/-- Concatenation of string blocks, modelling the `context += ...` loops. -/
def strJoin : List String → String
  | [] => ""
  | s :: rest => s ++ strJoin rest

/-- The per-product block of the digest (lines 282-303). -/
def renderProduct (sp : String × Product) : String :=
  "\n【" ++ sp.2.product_name ++ "】(SKU: " ++ sp.1 ++ ")\n"
    ++ strJoin (sp.2.specifications.map fun kv =>
        "  " ++ kv.1 ++ ": " ++ kv.2 ++ "\n")
    ++ strJoin (sp.2.usage.map fun kv =>
        match kv.2 with
        | UsageVal.arr vs => "  " ++ kv.1 ++ ": " ++ joinComma vs ++ "\n"
        | UsageVal.str v => "  " ++ kv.1 ++ ": " ++ v ++ "\n")
    ++ (if sp.2.features_key_points.isEmpty then ""
        else "  特徴: " ++ joinComma sp.2.features_key_points ++ "\n")
    ++ (if sp.2.faq.isEmpty then ""
        else "  よくある質問:\n" ++ strJoin (sp.2.faq.map fun qa =>
          "    Q: " ++ qa.1 ++ "\n    A: " ++ qa.2 ++ "\n"))

/-- `search_relevant_products(query)` (lines 245-305): empty string when
nothing matched, otherwise the concatenated blocks of the deduplicated,
capped product list. -/
def search_relevant_products (db : List (String × Product)) (query : String) :
    String :=
  if (foundProducts db query).isEmpty then ""
  else strJoin ((relevantProducts db query).map renderProduct)

/-! ## Draft generation (`generate_response_with_claude`, lines 311-372)

The Claude API call is a parameter `callApi : api_key → user_prompt →
Except error reply`; on `Except.error e` the function returns the error
string `"❌ エラーが発生しました: " ++ e` instead of raising. Rational
similarities are rendered with `toString`, modelling Python float
formatting. -/

/-- One `--- 類似事例 i ---` block of the Q&A context (lines 319-322),
with the question truncated to 300 characters and the answer to 500. -/
def qaContextBlock (iqa : Nat × SimilarQA) : String :=
  "\n--- 類似事例 " ++ toString iqa.1 ++ " (類似度: "
    ++ toString iqa.2.similarity ++ ") ---\n"
    ++ "問い合わせ: " ++ iqa.2.question.take 300 ++ "\n"
    ++ "回答: " ++ iqa.2.answer.take 500 ++ "\n"

/-- The `qa_context` string (lines 316-322): empty when there are no similar
entries. -/
def qa_context (similar_qa : List SimilarQA) : String :=
  if similar_qa.isEmpty then ""
  else "【過去の類似問い合わせと回答】\n"
    ++ strJoin ((similar_qa.enumFrom 1).map qaContextBlock)

/-- The user prompt (lines 350-360). -/
def user_prompt_of (inquiry_text : String) (similar_qa : List SimilarQA)
    (product_context : String) : String :=
  "以下の問い合わせに対して、適切な返答を生成してください。\n\n【問い合わせ内容】\n"
    ++ inquiry_text ++ "\n\n" ++ qa_context similar_qa ++ "\n\n"
    ++ (if product_context = "" then ""
        else "【関連商品情報】" ++ product_context)
    ++ "\n\n上記の過去の類似事例と商品情報を参考に、カスタマーサポートとして適切な返答を作成してください。\n過去の回答のトーンや対応方針をできるだけ踏襲してください。"

/-- The fixed error marker returned on a generation-service failure
(line 372). -/
def genErrorPrefix : String :=
  "❌ エラーが発生しました: "

/-- `generate_response_with_claude` (lines 311-372): return the service's
reply, or on any service error the error string embedding the failure
reason. -/
def generate_response_with_claude
    (callApi : String → String → Except String String)
    (inquiry_text api_key : String) (similar_qa : List SimilarQA)
    (product_context : String) : String :=
  match callApi api_key (user_prompt_of inquiry_text similar_qa product_context) with
  | Except.ok reply => reply
  | Except.error e => genErrorPrefix ++ e

/-! ## Ledger rows and the generate-button flow (lines 378-404, 534-553) -/

/-- A row of the `inquiries` table; `category` and `inquiry_channel` are
nullable columns. -/
structure InquiryRow where
  id : Nat
  inquiry_text : String
  category : Option String
  inquiry_channel : Option String
  created_by : String
  created_at : Int
deriving DecidableEq

/-- A row of the `ai_responses` table. -/
structure AIRespRow where
  id : Nat
  inquiry_id : Nat
  generated_response : String
  prompt_version : String
deriving DecidableEq

/-- A row of the `feedbacks` table. -/
structure FeedbackRow where
  ai_response_id : Nat
  rating : String
deriving DecidableEq

/-- `save_inquiry` (lines 378-385): insert and return the autoincrement id,
modelled as `length + 1`. -/
def save_inquiry (inquiries : List InquiryRow)
    (inquiry_text category channel created_by : String) (now : Int) :
    List InquiryRow × Nat :=
  let newId := inquiries.length + 1
  (inquiries ++
    [{ id := newId
       inquiry_text := inquiry_text
       category := some category
       inquiry_channel := some channel
       created_by := created_by
       created_at := now }], newId)

/-- `save_ai_response` (lines 387-391). -/
def save_ai_response (responses : List AIRespRow) (inquiry_id : Nat)
    (response_text : String) : List AIRespRow × Nat :=
  let newId := responses.length + 1
  (responses ++
    [{ id := newId
       inquiry_id := inquiry_id
       generated_response := response_text
       prompt_version := "v5_rag" }], newId)

/-- Result of the `🤖 AI返答を生成` button flow. -/
structure GenFlowResult where
  inquiries : List InquiryRow
  ai_responses : List AIRespRow
  inquiry_id : Nat
  response_id : Nat
  response : String
  similar_qa : List SimilarQA
deriving DecidableEq

/-- The `🤖 AI返答を生成` button handler (lines 534-553): retrieve similar
Q&A and the product digest, persist the inquiry, generate the draft, and
persist it as an `ai_responses` row — whatever string generation returned. -/
def generate_button_flow (embed : String → Option (List ℚ))
    (dist : List ℚ → List ℚ → ℚ)
    (callApi : String → String → Except String String)
    (productDB : List (String × Product)) (corpus : List QARow)
    (inquiries : List InquiryRow) (responses : List AIRespRow)
    (inquiry api_key category channel user_name : String) (now : Int) :
    GenFlowResult :=
  let similar_qa := search_similar_qa embed dist corpus inquiry 5
  let product_context := search_relevant_products productDB inquiry
  let si := save_inquiry inquiries inquiry category channel user_name now
  let response :=
    generate_response_with_claude callApi inquiry api_key similar_qa product_context
  let sr := save_ai_response responses si.2 response
  { inquiries := si.1
    ai_responses := sr.1
    inquiry_id := si.2
    response_id := sr.2
    response := response
    similar_qa := similar_qa }

/-! ## Aggregate statistics (`get_stats`, lines 406-449, and the dashboard
rate computation, lines 647-650) -/

/-- The persistent database state seen by `get_stats`. -/
structure Ledger where
  inquiries : List InquiryRow
  ai_responses : List AIRespRow
  corrections : List CorrectionRow
  feedbacks : List FeedbackRow
  corpus : List QARow
deriving DecidableEq

/-- SQL `created_at BETWEEN start AND end` (inclusive), applied only when
both bounds are given. -/
def inRangeB (range : Option (Int × Int)) (t : Int) : Bool :=
  match range with
  | none => true
  | some se => decide (se.1 ≤ t) && decide (t ≤ se.2)

/-- The date-filtered `inquiries` query of `get_stats` (lines 407-409). -/
def filteredInquiries (db : Ledger) (range : Option (Int × Int)) :
    List InquiryRow :=
  db.inquiries.filter fun i => inRangeB range i.created_at

/-- The inner join `ai_responses ⋈ inquiries` restricted to the date range:
whether a given `ai_response_id` reaches an inquiry inside the range. -/
def joinedToInquiryInRange (db : Ledger) (range : Option (Int × Int))
    (ai_response_id : Nat) : Bool :=
  db.ai_responses.any fun r =>
    r.id == ai_response_id &&
      db.inquiries.any fun i =>
        i.id == r.inquiry_id && inRangeB range i.created_at

/-- `Feedback ⋈ AIResponse ⋈ Inquiry` count for one rating value
(lines 412-418). -/
def feedback_count (db : Ledger) (range : Option (Int × Int))
    (rating : String) : Nat :=
  (db.feedbacks.filter fun f =>
    f.rating == rating && joinedToInquiryInRange db range f.ai_response_id).length

/-- `HumanCorrection ⋈ AIResponse ⋈ Inquiry` count (lines 420-423). -/
def corrections_count (db : Ledger) (range : Option (Int × Int)) : Nat :=
  (db.corrections.filter fun c =>
    joinedToInquiryInRange db range c.ai_response_id).length

/-- Python truthiness of a nullable string column: `None` and `''` are
falsy. -/
def truthyOpt : Option String → Bool
  | none => false
  | some s => s != ""

/-- The dict comprehension `{key: count for key, count in grouped if key}`
over a `GROUP BY` of the filtered query (lines 425-433): one entry per
distinct truthy key, with its row count. -/
def groupCounts (vals : List (Option String)) : List (String × Nat) :=
  vals.dedup.filterMap fun v =>
    match v with
    | none => none
    | some c => if c = "" then none else some (c, vals.count (some c))

/-- The record returned by `get_stats` (lines 445-449). -/
structure Stats where
  total : Nat
  good : Nat
  bad : Nat
  corrections : Nat
  by_category : List (String × Nat)
  by_channel : List (String × Nat)
  qa_total : Nat
  learned : Nat
deriving DecidableEq

/-- `get_stats(session, start_date, end_date)` (lines 406-449). -/
def get_stats (db : Ledger) (range : Option (Int × Int)) : Stats :=
  let filtered := filteredInquiries db range
  { total := filtered.length
    good := feedback_count db range "good"
    bad := feedback_count db range "bad"
    corrections := corrections_count db range
    by_category := groupCounts (filtered.map fun i => i.category)
    by_channel := groupCounts (filtered.map fun i => i.inquiry_channel)
    qa_total := db.corpus.length
    learned := (db.corpus.filter fun r => r.platform == "修正データ").length }

/-- The dashboard GOOD rate `(stats['good'] / max(stats['total'], 1)) * 100`
(line 647). -/
def good_rate (s : Stats) : ℚ :=
  ((s.good : ℚ) / ((max s.total 1 : ℕ) : ℚ)) * 100

/-- The dashboard BAD rate `(stats['bad'] / max(stats['total'], 1)) * 100`
(line 650). -/
def bad_rate (s : Stats) : ℚ :=
  ((s.bad : ℚ) / ((max s.total 1 : ℕ) : ℚ)) * 100

/-! ## Concrete fixtures used to evaluate the theorems on closed inputs -/

/-- A concrete embedding client: fails on the text `"fail"`. -/
def embedW : String → Option (List ℚ) :=
  fun s => if s = "fail" then none else some [1, 0]

/-- A concrete distance function (squared Euclidean distance). -/
def distW : List ℚ → List ℚ → ℚ :=
  fun a b => ((a.zip b).map fun p => (p.1 - p.2) * (p.1 - p.2)).sum

/-- A concrete two-row corpus. -/
def corpusW : List QARow :=
  [{ id := 1, question := "q1", answer := "a1", category := "c",
     platform := "p", embedding := [0, 1], created_at := 0 },
   { id := 2, question := "q2", answer := "a2", category := "c",
     platform := "p", embedding := [1, 0], created_at := 0 }]

/-- A concrete generation client that always fails with reason `"timeout"`. -/
def callApiFailW : String → String → Except String String :=
  fun _ _ => Except.error "timeout"

/-- A concrete catalog product matching `"panel"`. -/
def productW : Product :=
  { product_name := "BRIM PANEL A", category := "light",
    specifications := [("power", "10W")], usage := [],
    features_key_points := [], faq := [] }

/-- A second concrete catalog product, matching neither `"panel"` nor the
fallback word used in the tests. -/
def productW2 : Product :=
  { product_name := "BRIM MAT", category := "heater",
    specifications := [], usage := [], features_key_points := [], faq := [] }

/-- A concrete two-product catalog. -/
def productDBW : List (String × Product) :=
  [("SKU1", productW), ("SKU2", productW2)]

/-- A concrete inquiry with truthy category and channel. -/
def inquiryW1 : InquiryRow :=
  { id := 1, inquiry_text := "hello", category := some "cat",
    inquiry_channel := some "ch", created_by := "u", created_at := 10 }

/-- A concrete inquiry with `NULL` category and empty channel. -/
def inquiryW2 : InquiryRow :=
  { id := 2, inquiry_text := "bye", category := none,
    inquiry_channel := some "", created_by := "u", created_at := 10 }

/-- A concrete ledger state. -/
def ledgerW : Ledger :=
  { inquiries := [inquiryW1, inquiryW2]
    ai_responses :=
      [{ id := 1, inquiry_id := 1, generated_response := "r",
         prompt_version := "v5_rag" }]
    corrections := []
    feedbacks := [{ ai_response_id := 1, rating := "good" }]
    corpus := [] }

/-- A catalog entry whose name or category contains `"panel"` (the match
predicate of `search_products` for the panel keyword). -/
def panelHit (sp : String × Product) : Prop :=
  substrB "panel" (strLower sp.2.product_name) = true ∨
    substrB "panel" (strLower sp.2.category) = true

instance (sp : String × Product) : Decidable (panelHit sp) :=
  inferInstanceAs (Decidable
    (substrB "panel" (strLower sp.2.product_name) = true ∨
      substrB "panel" (strLower sp.2.category) = true))

/-! ## Theorems -/

/-- C7: for every inquiry text, if the embedding call fails (returns no
vector) then `search_similar_qa` returns an empty ranked list rather than
raising an error; likewise an empty corpus yields an empty list. -/
theorem retrieval_degrades_to_empty (embed : String → Option (List ℚ))
    (dist : List ℚ → List ℚ → ℚ) (corpus : List QARow) (q : String) (k : Nat) :
    (embed q = none → search_similar_qa embed dist corpus q k = []) ∧
    (corpus = [] → search_similar_qa embed dist corpus q k = []) := by
  constructor
  · intro h
    simp [search_similar_qa, h]
  · intro h
    subst h
    cases hembed : embed q with
    | none => simp [search_similar_qa, hembed]
    | some emb => simp [search_similar_qa, hembed, ragOrder, List.insertionSort]

/-- Witness for C7 at concrete inputs. -/
theorem retrieval_degrades_to_empty_witness :
    search_similar_qa embedW distW corpusW "fail" 5 = [] ∧
    search_similar_qa embedW distW [] "q" 5 = [] :=
  ⟨(retrieval_degrades_to_empty embedW distW corpusW "fail" 5).1 (by decide),
   (retrieval_degrades_to_empty embedW distW [] "q" 5).2 rfl⟩

/-- C4: a correction whose edited text equals the generated draft's text
triggers no Feedback Loop append — the corpus is unchanged by the
save-and-learn handler. -/
theorem unchanged_edit_no_corpus_append (embed : String → Option (List ℚ))
    (insert_commits : Bool) (now : Int) (corpus : List QARow)
    (corrections : List CorrectionRow) (response_id : Nat)
    (inquiry current edited category user : String) (heq : edited = current) :
    (save_and_learn embed insert_commits now corpus corrections response_id
      inquiry current edited category user).corpus = corpus := by
  simp [save_and_learn, heq]

/-- Witness for C4 at concrete inputs. -/
theorem unchanged_edit_no_corpus_append_witness :
    (save_and_learn embedW true 0 corpusW [] 1 "inq" "draft" "draft" "c"
      "u").corpus = corpusW :=
  unchanged_edit_no_corpus_append embedW true 0 corpusW [] 1 "inq" "draft"
    "draft" "c" "u" rfl

/-- C9: a correction whose edited text equals the draft's text makes the
entire save-and-learn handler a no-op on persistent state — no
`human_corrections` row is written either, and the user is shown the
informational message. -/
theorem unchanged_edit_noop (embed : String → Option (List ℚ))
    (insert_commits : Bool) (now : Int) (corpus : List QARow)
    (corrections : List CorrectionRow) (response_id : Nat)
    (inquiry current edited category user : String) (heq : edited = current) :
    save_and_learn embed insert_commits now corpus corrections response_id
      inquiry current edited category user =
      { corpus := corpus, corrections := corrections,
        message := SaveMsg.unchangedInfo } := by
  simp [save_and_learn, heq]

/-- Witness for C9 at concrete inputs. -/
theorem unchanged_edit_noop_witness :
    save_and_learn embedW true 0 corpusW [] 1 "inq" "draft" "draft" "c" "u" =
      { corpus := corpusW, corrections := [],
        message := SaveMsg.unchangedInfo } :=
  unchanged_edit_noop embedW true 0 corpusW [] 1 "inq" "draft" "draft" "c"
    "u" rfl

/-- C3: `add_correction_to_qa` is atomic with respect to the corpus — on
embedding failure it returns `false` with the corpus unchanged; on a
persistence error it rolls back, returning `false` with the corpus
unchanged; and it returns `true` only when the embedding succeeded and the
insert committed, in which case exactly one row was appended. -/
theorem learn_atomic (embed : String → Option (List ℚ))
    (insert_commits : Bool) (now : Int) (corpus : List QARow)
    (q a c p : String) :
    (embed q = none →
      add_correction_to_qa embed insert_commits now corpus q a c p
        = (false, corpus)) ∧
    (insert_commits = false →
      add_correction_to_qa embed insert_commits now corpus q a c p
        = (false, corpus)) ∧
    ((add_correction_to_qa embed insert_commits now corpus q a c p).1 = true →
      insert_commits = true ∧ ∃ emb, embed q = some emb ∧
        (add_correction_to_qa embed insert_commits now corpus q a c p).2.length
          = corpus.length + 1) := by
  refine ⟨?_, ?_, ?_⟩
  · intro h
    simp [add_correction_to_qa, h]
  · intro h
    subst h
    cases hembed : embed q <;> simp [add_correction_to_qa, hembed]
  · intro h
    cases hembed : embed q with
    | none => simp [add_correction_to_qa, hembed] at h
    | some emb =>
      cases insert_commits with
      | false => simp [add_correction_to_qa, hembed] at h
      | true =>
        exact ⟨rfl, emb, rfl, by simp [add_correction_to_qa, hembed]⟩

/-- Witness for C3 at a concrete input where the embedding fails. -/
theorem learn_atomic_witness :
    add_correction_to_qa embedW true 0 corpusW "fail" "ans" "c" "修正データ"
      = (false, corpusW) :=
  (learn_atomic embedW true 0 corpusW "fail" "ans" "c" "修正データ").1
    (by decide)

/-- C2: a correction whose edited text differs from the draft, with a
successful embedding and a committing insert, grows the corpus by exactly
one row whose `question` is the original inquiry text and whose `answer` is
the corrected text; the handler reports success. -/
theorem differing_correction_appends (embed : String → Option (List ℚ))
    (now : Int) (corpus : List QARow) (corrections : List CorrectionRow)
    (response_id : Nat) (inquiry current edited category user : String)
    (emb : List ℚ) (hdiff : edited ≠ current)
    (hemb : embed inquiry = some emb) :
    (save_and_learn embed true now corpus corrections response_id inquiry
      current edited category user).message = SaveMsg.learned ∧
    (save_and_learn embed true now corpus corrections response_id inquiry
      current edited category user).corpus.length = corpus.length + 1 ∧
    ∃ row : QARow,
      (save_and_learn embed true now corpus corrections response_id inquiry
        current edited category user).corpus = corpus ++ [row] ∧
      row.question = inquiry ∧ row.answer = edited := by
  refine ⟨?_, ?_,
    ⟨⟨corpus.length + 1, inquiry, edited, category, "修正データ", emb, now⟩,
      ?_, rfl, rfl⟩⟩ <;>
    simp [save_and_learn, hdiff, add_correction_to_qa, hemb]

/-- Witness for C2 at concrete inputs. -/
theorem differing_correction_appends_witness :
    (save_and_learn embedW true 0 corpusW [] 1 "inq" "draft" "edited" "c"
      "u").message = SaveMsg.learned ∧
    (save_and_learn embedW true 0 corpusW [] 1 "inq" "draft" "edited" "c"
      "u").corpus.length = corpusW.length + 1 ∧
    ∃ row : QARow,
      (save_and_learn embedW true 0 corpusW [] 1 "inq" "draft" "edited" "c"
        "u").corpus = corpusW ++ [row] ∧
      row.question = "inq" ∧ row.answer = "edited" :=
  differing_correction_appends embedW 0 corpusW [] 1 "inq" "draft" "edited"
    "c" "u" [1, 0] (by decide) (by decide)

/-- C5: on any failure of the generation service, the generate-button flow
produces the error string embedding the failure reason instead of raising,
and that string is still persisted as an `ai_responses` row for the newly
saved inquiry. -/
theorem generation_failure_persisted (embed : String → Option (List ℚ))
    (dist : List ℚ → List ℚ → ℚ)
    (callApi : String → String → Except String String)
    (productDB : List (String × Product)) (corpus : List QARow)
    (inquiries : List InquiryRow) (responses : List AIRespRow)
    (inquiry api_key category channel user : String) (now : Int)
    (reason : String)
    (hfail : ∀ p, callApi api_key p = Except.error reason) :
    (generate_button_flow embed dist callApi productDB corpus inquiries
      responses inquiry api_key category channel user now).response
      = genErrorPrefix ++ reason ∧
    containsStr (generate_button_flow embed dist callApi productDB corpus
      inquiries responses inquiry api_key category channel user now).response
      reason ∧
    (generate_button_flow embed dist callApi productDB corpus inquiries
      responses inquiry api_key category channel user now).ai_responses
      = responses ++
        [{ id := responses.length + 1
           inquiry_id := inquiries.length + 1
           generated_response := genErrorPrefix ++ reason
           prompt_version := "v5_rag" }] := by
  have hresp : (generate_button_flow embed dist callApi productDB corpus
      inquiries responses inquiry api_key category channel user now).response
      = genErrorPrefix ++ reason := by
    simp [generate_button_flow, generate_response_with_claude, hfail]
  refine ⟨hresp, ?_, ?_⟩
  · rw [hresp]
    exact ⟨genErrorPrefix, "", by rw [String.append_empty]⟩
  · simp [generate_button_flow, generate_response_with_claude, hfail,
      save_ai_response, save_inquiry]

/-- Witness for C5 at concrete inputs (a generation client that always
fails with reason `"timeout"`). -/
theorem generation_failure_persisted_witness :
    (generate_button_flow embedW distW callApiFailW productDBW corpusW []
      [] "inq" "key" "cat" "ch" "u" 0).response
      = genErrorPrefix ++ "timeout" ∧
    containsStr (generate_button_flow embedW distW callApiFailW productDBW
      corpusW [] [] "inq" "key" "cat" "ch" "u" 0).response "timeout" ∧
    (generate_button_flow embedW distW callApiFailW productDBW corpusW []
      [] "inq" "key" "cat" "ch" "u" 0).ai_responses
      = [] ++
        [{ id := 1
           inquiry_id := 1
           generated_response := genErrorPrefix ++ "timeout"
           prompt_version := "v5_rag" }] :=
  generation_failure_persisted embedW distW callApiFailW productDBW corpusW
    [] [] "inq" "key" "cat" "ch" "u" 0 "timeout" (fun _ => rfl)

/-- Rounding over ℚ is monotone. -/
theorem round_rat_mono {x y : ℚ} (h : x ≤ y) : round x ≤ round y := by
  rw [round_eq, round_eq]
  exact Int.floor_mono (by linarith)

/-- Rounding to 4 decimal places is monotone. -/
theorem round4_mono {x y : ℚ} (h : x ≤ y) : round4 x ≤ round4 y := by
  unfold round4
  have h1 : round (x * 10000) ≤ round (y * 10000) :=
    round_rat_mono (by linarith)
  have h2 : ((round (x * 10000) : ℤ) : ℚ) ≤ ((round (y * 10000) : ℤ) : ℚ) := by
    exact_mod_cast h1
  linarith

/-- C1: when the embedding succeeds, `search_similar_qa` returns at most `k`
entries, sorted by non-increasing similarity score, and each entry comes
from a corpus row with its similarity equal to 1 minus the row's distance to
the inquiry embedding, rounded to 4 decimal places. -/
theorem retrieval_topk_sorted (embed : String → Option (List ℚ))
    (dist : List ℚ → List ℚ → ℚ) (corpus : List QARow) (q : String)
    (k : Nat) (emb : List ℚ) (hemb : embed q = some emb) :
    (search_similar_qa embed dist corpus q k).length ≤ k ∧
    (search_similar_qa embed dist corpus q k).Pairwise
      (fun a b => b.similarity ≤ a.similarity) ∧
    (∀ e ∈ search_similar_qa embed dist corpus q k, ∃ row ∈ corpus,
      e.id = row.id ∧ e.question = row.question ∧ e.answer = row.answer ∧
      e.category = row.category ∧ e.platform = row.platform ∧
      e.similarity = round4 (1 - dist emb row.embedding)) := by
  have hdef : search_similar_qa embed dist corpus q k =
      ((ragOrder dist emb corpus).take k).map (fun row =>
        { id := row.id, question := row.question, answer := row.answer,
          category := row.category, platform := row.platform,
          similarity := round4 (1 - dist emb row.embedding) }) := by
    simp [search_similar_qa, hemb]
  refine ⟨?_, ?_, ?_⟩
  · rw [hdef]
    simp only [List.length_map]
    exact List.length_take_le k (ragOrder dist emb corpus)
  · rw [hdef]
    have hsorted : List.Sorted (distLE dist emb) (ragOrder dist emb corpus) :=
      List.sorted_insertionSort (distLE dist emb) corpus
    have htake : List.Sorted (distLE dist emb)
        ((ragOrder dist emb corpus).take k) :=
      List.Pairwise.sublist (List.take_sublist k _) hsorted
    exact List.Pairwise.map _
      (fun a b hab => round4_mono (by
        simp only [distLE] at hab
        linarith)) htake
  · rw [hdef]
    intro e he
    obtain ⟨row, hrow, rfl⟩ := List.mem_map.1 he
    refine ⟨row, ?_, rfl, rfl, rfl, rfl, rfl, rfl⟩
    exact (List.perm_insertionSort (distLE dist emb) corpus).subset
      (List.mem_of_mem_take hrow)

/-- Witness for C1 at concrete inputs. -/
theorem retrieval_topk_sorted_witness :
    (search_similar_qa embedW distW corpusW "hello" 1).length ≤ 1 ∧
    (search_similar_qa embedW distW corpusW "hello" 1).Pairwise
      (fun a b => b.similarity ≤ a.similarity) ∧
    (∀ e ∈ search_similar_qa embedW distW corpusW "hello" 1, ∃ row ∈ corpusW,
      e.id = row.id ∧ e.question = row.question ∧ e.answer = row.answer ∧
      e.category = row.category ∧ e.platform = row.platform ∧
      e.similarity = round4 (1 - distW [1, 0] row.embedding)) :=
  retrieval_topk_sorted embedW distW corpusW "hello" 1 [1, 0] (by decide)

/-- C8: for a date range containing zero inquiries, `get_stats` reports
`total = 0` with empty category and channel groupings, and the dashboard
rate computation divides by `max(total, 1) = 1`, never by zero, reporting
0% for both rates. -/
theorem stats_empty_range (db : Ledger) (s e : Int)
    (hempty : ∀ i ∈ db.inquiries,
      inRangeB (some (s, e)) i.created_at = false) :
    (get_stats db (some (s, e))).total = 0 ∧
    (get_stats db (some (s, e))).by_category = [] ∧
    (get_stats db (some (s, e))).by_channel = [] ∧
    (get_stats db (some (s, e))).good = 0 ∧
    (get_stats db (some (s, e))).bad = 0 ∧
    ((max (get_stats db (some (s, e))).total 1 : ℕ) : ℚ) ≠ 0 ∧
    good_rate (get_stats db (some (s, e))) = 0 ∧
    bad_rate (get_stats db (some (s, e))) = 0 := by
  have hfil : filteredInquiries db (some (s, e)) = [] := by
    rw [filteredInquiries, List.filter_eq_nil_iff]
    intro i hi
    simp [hempty i hi]
  have hinner : ∀ rid : Nat, (db.inquiries.any fun i =>
      i.id == rid && inRangeB (some (s, e)) i.created_at) = false := by
    intro rid
    rw [List.any_eq_false]
    intro i hi
    simp [hempty i hi]
  have hjoin : ∀ a, joinedToInquiryInRange db (some (s, e)) a = false := by
    intro a
    rw [joinedToInquiryInRange, List.any_eq_false]
    intro r _
    simp [hinner r.inquiry_id]
  have hgood : feedback_count db (some (s, e)) "good" = 0 := by
    rw [feedback_count]
    simp [hjoin]
  have hbad : feedback_count db (some (s, e)) "bad" = 0 := by
    rw [feedback_count]
    simp [hjoin]
  have htotal : (get_stats db (some (s, e))).total = 0 := by
    simp [get_stats, hfil]
  have hcat : (get_stats db (some (s, e))).by_category = [] := by
    simp [get_stats, hfil, groupCounts]
  have hch : (get_stats db (some (s, e))).by_channel = [] := by
    simp [get_stats, hfil, groupCounts]
  have hg : (get_stats db (some (s, e))).good = 0 := by
    simp only [get_stats]
    exact hgood
  have hb : (get_stats db (some (s, e))).bad = 0 := by
    simp only [get_stats]
    exact hbad
  refine ⟨htotal, hcat, hch, hg, hb, ?_, ?_, ?_⟩
  · rw [htotal]
    norm_num
  · rw [good_rate, hg, htotal]
    norm_num
  · rw [bad_rate, hb, htotal]
    norm_num

/-- Witness for C8 at a concrete ledger and an inquiry-free date range. -/
theorem stats_empty_range_witness :
    (get_stats ledgerW (some (100, 200))).total = 0 ∧
    (get_stats ledgerW (some (100, 200))).by_category = [] ∧
    (get_stats ledgerW (some (100, 200))).by_channel = [] ∧
    (get_stats ledgerW (some (100, 200))).good = 0 ∧
    (get_stats ledgerW (some (100, 200))).bad = 0 ∧
    ((max (get_stats ledgerW (some (100, 200))).total 1 : ℕ) : ℚ) ≠ 0 ∧
    good_rate (get_stats ledgerW (some (100, 200))) = 0 ∧
    bad_rate (get_stats ledgerW (some (100, 200))) = 0 :=
  stats_empty_range ledgerW 100 200 (by decide)

/-- Sums of pointwise sums of two maps split. -/
theorem sum_map_add_nat {α : Type} (d : List α) (f g : α → ℕ) :
    (d.map fun v => f v + g v).sum = (d.map f).sum + (d.map g).sum := by
  induction d with
  | nil => simp
  | cons a d ih =>
    simp [ih]
    omega

/-- Over a duplicate-free list, summing an indicator of one value yields the
value's contribution once. -/
theorem sum_map_ite_nodup {α : Type} [DecidableEq α] (d : List α) (a : α)
    (n : ℕ) (hd : d.Nodup) :
    (d.map fun v => if a = v then n else 0).sum = if a ∈ d then n else 0 := by
  induction d with
  | nil => simp
  | cons b d ih =>
    rw [List.nodup_cons] at hd
    rw [List.map_cons, List.sum_cons, ih hd.2]
    by_cases hab : a = b
    · subst hab
      simp [hd.1]
    · simp [hab]

/-- Partition identity: the counts of the distinct values satisfying `p`
add up to the number of elements satisfying `p`. -/
theorem sum_counts_dedup_filter {α : Type} [DecidableEq α] [BEq α]
    [LawfulBEq α] (l : List α) (p : α → Bool) :
    ((l.dedup.filter p).map fun v => l.count v).sum
      = (l.filter p).length := by
  induction l with
  | nil => simp
  | cons a l ih =>
    have hcount : ∀ d : List α, (d.map fun v => (a :: l).count v).sum
        = (d.map fun v => l.count v).sum
          + (d.map fun v => if a = v then 1 else 0).sum := by
      intro d
      rw [← sum_map_add_nat]
      apply congrArg List.sum
      apply List.map_congr_left
      intro v _
      rw [List.count_cons]
      simp [beq_iff_eq]
    by_cases hmem : a ∈ l
    · rw [List.dedup_cons_of_mem hmem, hcount (l.dedup.filter p), ih,
          sum_map_ite_nodup (l.dedup.filter p) a 1
            (List.Nodup.filter p (List.nodup_dedup l)),
          List.filter_cons]
      by_cases hpa : p a = true
      · have hmemf : a ∈ l.dedup.filter p :=
          List.mem_filter.2 ⟨List.mem_dedup.2 hmem, hpa⟩
        simp [hpa, hmemf]
      · have hmemf : a ∉ l.dedup.filter p :=
          fun h => hpa (List.mem_filter.1 h).2
        simp [hpa, hmemf]
    · have hded : a ∉ l.dedup := fun h => hmem (List.mem_dedup.1 h)
      have hdedf : a ∉ l.dedup.filter p :=
        fun h => hded (List.mem_filter.1 h).1
      have h1 : (a :: l).count a = 1 := by
        rw [List.count_cons]
        simp [List.count_eq_zero_of_not_mem hmem]
      rw [List.dedup_cons_of_not_mem hmem, List.filter_cons, List.filter_cons]
      by_cases hpa : p a = true
      · rw [if_pos hpa, if_pos hpa, List.map_cons, List.sum_cons,
            hcount (l.dedup.filter p), ih,
            sum_map_ite_nodup (l.dedup.filter p) a 1
              (List.Nodup.filter p (List.nodup_dedup l)),
            if_neg hdedf, h1]
        simp
        omega
      · rw [if_neg hpa, if_neg hpa, hcount (l.dedup.filter p), ih,
            sum_map_ite_nodup (l.dedup.filter p) a 1
              (List.Nodup.filter p (List.nodup_dedup l)),
            if_neg hdedf]
        simp

/-- The grouped counts of `get_stats` sum to the number of rows whose key is
truthy. -/
theorem groupCounts_sum (vals : List (Option String)) :
    ((groupCounts vals).map Prod.snd).sum = (vals.filter truthyOpt).length := by
  have h1 : (groupCounts vals).map Prod.snd
      = (vals.dedup.filter truthyOpt).map fun v => vals.count v := by
    rw [groupCounts]
    induction vals.dedup with
    | nil => simp
    | cons v d ih =>
      cases v with
      | none =>
        rw [List.filterMap_cons, List.filter_cons]
        simpa [truthyOpt] using ih
      | some c =>
        by_cases hc : c = ""
        · rw [List.filterMap_cons, List.filter_cons]
          subst hc
          simpa [truthyOpt] using ih
        · rw [List.filterMap_cons, List.filter_cons]
          simp only [hc, if_neg, truthyOpt]
          simp [hc, ih]
  rw [h1]
  exact sum_counts_dedup_filter vals truthyOpt

/-- Keys of the groupings are never the empty string (falsy keys are
excluded by the dict comprehension's `if key`). -/
theorem groupCounts_keys (vals : List (Option String)) :
    ∀ kv ∈ groupCounts vals, kv.1 ≠ "" := by
  intro kv hkv
  obtain ⟨v, _, hf⟩ := List.mem_filterMap.1 hkv
  cases v with
  | none => simp at hf
  | some c =>
    by_cases hc : c = ""
    · simp [hc] at hf
    · simp [hc] at hf
      subst hf
      exact hc

/-- C10: the by-category and by-channel groupings of `get_stats` exclude
every group whose key is null or empty, so the grouped counts sum to the
number of inquiries with a truthy key — and that sum is strictly less than
the reported total whenever some inquiry in range has no (falsy) category. -/
theorem stats_grouping_excludes_falsy (db : Ledger)
    (range : Option (Int × Int)) :
    (∀ kv ∈ (get_stats db range).by_category, kv.1 ≠ "") ∧
    (((get_stats db range).by_category.map Prod.snd).sum
      = ((filteredInquiries db range).filter
          fun i => truthyOpt i.category).length) ∧
    (∀ kv ∈ (get_stats db range).by_channel, kv.1 ≠ "") ∧
    (((get_stats db range).by_channel.map Prod.snd).sum
      = ((filteredInquiries db range).filter
          fun i => truthyOpt i.inquiry_channel).length) ∧
    ((∃ i ∈ filteredInquiries db range, truthyOpt i.category = false) →
      ((get_stats db range).by_category.map Prod.snd).sum
        < (get_stats db range).total) := by
  have hbycat : (get_stats db range).by_category
      = groupCounts ((filteredInquiries db range).map fun i => i.category) := by
    simp [get_stats]
  have hbych : (get_stats db range).by_channel
      = groupCounts
          ((filteredInquiries db range).map fun i => i.inquiry_channel) := by
    simp [get_stats]
  have htotal : (get_stats db range).total
      = (filteredInquiries db range).length := by
    simp [get_stats]
  have hsumcat : ((get_stats db range).by_category.map Prod.snd).sum
      = ((filteredInquiries db range).filter
          fun i => truthyOpt i.category).length := by
    rw [hbycat, groupCounts_sum, List.filter_map, List.length_map]
    rfl
  have hsumch : ((get_stats db range).by_channel.map Prod.snd).sum
      = ((filteredInquiries db range).filter
          fun i => truthyOpt i.inquiry_channel).length := by
    rw [hbych, groupCounts_sum, List.filter_map, List.length_map]
    rfl
  refine ⟨?_, hsumcat, ?_, hsumch, ?_⟩
  · rw [hbycat]
    exact groupCounts_keys _
  · rw [hbych]
    exact groupCounts_keys _
  · rintro ⟨i, hi, hfalse⟩
    rw [hsumcat, htotal]
    exact List.length_filter_lt_length_iff_exists.2 ⟨i, hi, by simp [hfalse]⟩

/-- Witness for C10: with an inquiry whose category is `NULL`, the grouped
category counts sum to strictly less than the total. -/
theorem stats_grouping_excludes_falsy_witness :
    ((get_stats ledgerW none).by_category.map Prod.snd).sum
      < (get_stats ledgerW none).total :=
  (stats_grouping_excludes_falsy ledgerW none).2.2.2.2
    ⟨inquiryW2, by decide, by decide⟩

/-- A keyword fold in which no keyword occurs in the query accumulates
nothing. -/
theorem foldl_keyword_nil (db : List (String × Product)) (query : String)
    (kws : List String) (acc : List (String × Product))
    (h : ∀ kw ∈ kws, substrB (strUpper kw) (strUpper query) = false) :
    kws.foldl (fun acc kw =>
      if substrB (strUpper kw) (strUpper query) then acc ++ search_products db kw
      else acc) acc = acc := by
  induction kws generalizing acc with
  | nil => rfl
  | cons k ks ih =>
    rw [List.foldl_cons, if_neg (by simp [h k (List.mem_cons_self k ks)])]
    exact ih acc fun kw hkw => h kw (List.mem_cons_of_mem k hkw)

/-- Deduplication passes a duplicate-free prefix through unchanged,
accumulating its SKUs into `seen`. -/
theorem dedupeBySku_append (l r : List (String × Product)) :
    ∀ seen, (∀ sp ∈ l, sp.1 ∉ seen) → (l.map Prod.fst).Nodup →
      dedupeBySku seen (l ++ r)
        = l ++ dedupeBySku ((l.map Prod.fst).reverse ++ seen) r := by
  induction l with
  | nil =>
    intro seen _ _
    simp
  | cons sp l ih =>
    intro seen hdisj hnd
    have h1 : sp.1 ∉ seen := hdisj sp (List.mem_cons_self sp l)
    have hnd' : sp.1 ∉ l.map Prod.fst ∧ (l.map Prod.fst).Nodup := by
      rw [List.map_cons, List.nodup_cons] at hnd
      exact hnd
    have hdisj' : ∀ x ∈ l, x.1 ∉ sp.1 :: seen := by
      intro x hx hmem
      rcases List.mem_cons.1 hmem with h | h
      · exact hnd'.1 (h ▸ List.mem_map_of_mem Prod.fst hx)
      · exact hdisj x (List.mem_cons_of_mem sp hx) h
    rw [List.cons_append]
    simp only [dedupeBySku]
    rw [if_neg h1, ih (sp.1 :: seen) hdisj' hnd'.2]
    simp

/-- Deduplication drops every entry whose SKU was already seen. -/
theorem dedupeBySku_drop (r : List (String × Product)) :
    ∀ seen, (∀ sp ∈ r, sp.1 ∈ seen) → dedupeBySku seen r = [] := by
  induction r with
  | nil =>
    intro seen _
    rfl
  | cons sp r ih =>
    intro seen h
    simp only [dedupeBySku]
    rw [if_pos (h sp (List.mem_cons_self sp r))]
    exact ih seen fun x hx => h x (List.mem_cons_of_mem sp hx)

/-- Deduplicating a duplicate-free list appended to itself yields the list. -/
theorem dedupeBySku_double (l : List (String × Product))
    (hnd : (l.map Prod.fst).Nodup) :
    dedupeBySku [] (l ++ l) = l := by
  have hdrop : dedupeBySku ((l.map Prod.fst).reverse ++ []) l = [] := by
    apply dedupeBySku_drop
    intro sp hsp
    simp only [List.append_nil, List.mem_reverse]
    exact List.mem_map_of_mem Prod.fst hsp
  rw [dedupeBySku_append l l [] (by simp) hnd, hdrop, List.append_nil]

/-- Every rendered product block is a non-empty string. -/
theorem renderProduct_length_pos (sp : String × Product) :
    0 < (renderProduct sp).length := by
  rw [renderProduct]
  simp only [String.length_append]
  have h2 : "\n【".length = 2 := by decide
  omega

/-- The keyword queries `"PANEL"` and `"panel"` match the same products. -/
theorem search_products_upper_panel (db : List (String × Product)) :
    search_products db "PANEL" = search_products db "panel" := by
  have h1 : strLower "PANEL" = "panel" := by decide
  have h2 : strLower "panel" = "panel" := by decide
  simp only [search_products, h1, h2]

/-- Membership in the panel keyword search characterised by `panelHit`. -/
theorem mem_search_products_panel {db : List (String × Product)}
    {sp : String × Product} :
    sp ∈ search_products db "panel" ↔ sp ∈ db ∧ panelHit sp := by
  have hlow : strLower "panel" = "panel" := by decide
  simp only [search_products, hlow, List.mem_filter, Bool.or_eq_true, panelHit]

/-- C6: an inquiry containing the token `"PANEL"` (case-insensitively) and
no other recognized keyword yields a non-empty digest listing exactly the
first five panel-matching products — every listed product matches
`"panel"`, SKUs are duplicate-free, at most five products are listed, and
when at most five products match, every matching product is listed; an
inquiry matching no keyword and no per-word name substring (words of
length ≥ 2) yields the empty string. -/
theorem product_digest_panel (db : List (String × Product)) (query : String) :
    ((substrB "PANEL" (strUpper query) = true ∧
      (∀ kw ∈ keywordList, strUpper kw ≠ "PANEL" →
        substrB (strUpper kw) (strUpper query) = false) ∧
      (db.map Prod.fst).Nodup ∧ (∃ sp ∈ db, panelHit sp)) →
      (search_relevant_products db query ≠ "" ∧
       relevantProducts db query = (search_products db "panel").take 5 ∧
       (∀ sp ∈ relevantProducts db query, sp ∈ db ∧ panelHit sp) ∧
       ((relevantProducts db query).map Prod.fst).Nodup ∧
       (relevantProducts db query).length ≤ 5 ∧
       ((search_products db "panel").length ≤ 5 →
         ∀ sp ∈ db, panelHit sp → sp ∈ relevantProducts db query))) ∧
    (((∀ kw ∈ keywordList, substrB (strUpper kw) (strUpper query) = false) ∧
      (∀ sp ∈ db, ∀ w ∈ pyWords (strLower query),
        2 ≤ w.length → substrB w (strLower sp.2.product_name) = false)) →
      search_relevant_products db query = "") := by
  constructor
  · rintro ⟨hP, hother, hnodup, sp0, hsp0db, hsp0hit⟩
    have hPANEL : substrB (strUpper "PANEL") (strUpper query) = true := by
      rw [show strUpper "PANEL" = "PANEL" from by decide]
      exact hP
    have hpanel : substrB (strUpper "panel") (strUpper query) = true := by
      rw [show strUpper "panel" = "PANEL" from by decide]
      exact hP
    have hkm : keywordMatches db query
        = search_products db "PANEL" ++ search_products db "panel" := by
      simp only [keywordMatches, keywordList, List.foldl_cons, List.foldl_nil,
        hother "COSMO" (by decide) (by decide),
        hother "SOL" (by decide) (by decide),
        hother "LUNA" (by decide) (by decide),
        hother "FLORA" (by decide) (by decide),
        hother "パネル" (by decide) (by decide),
        hother "クリップ" (by decide) (by decide),
        hother "ヒートマット" (by decide) (by decide),
        hother "HMT" (by decide) (by decide),
        hother "シェード" (by decide) (by decide),
        hother "ソケット" (by decide) (by decide),
        hother "タイマー" (by decide) (by decide),
        hother "cosmo" (by decide) (by decide),
        hother "sol" (by decide) (by decide),
        hother "luna" (by decide) (by decide),
        hother "flora" (by decide) (by decide),
        hPANEL, hpanel]
      simp
    have hPp : search_products db "PANEL" = search_products db "panel" :=
      search_products_upper_panel db
    have hsp0L : sp0 ∈ search_products db "panel" :=
      mem_search_products_panel.2 ⟨hsp0db, hsp0hit⟩
    have hLne : search_products db "panel" ≠ [] := List.ne_nil_of_mem hsp0L
    have hLnd : ((search_products db "panel").map Prod.fst).Nodup :=
      List.Nodup.sublist (List.Sublist.map Prod.fst (List.filter_sublist db))
        hnodup
    have hempty : (search_products db "panel"
        ++ search_products db "panel").isEmpty = false := by
      obtain ⟨a, t, hLeq⟩ := List.exists_cons_of_ne_nil hLne
      rw [hLeq]
      rfl
    have hfound : foundProducts db query
        = search_products db "panel" ++ search_products db "panel" := by
      simp only [foundProducts, hkm, hPp]
      simp [hempty]
    have hrel : relevantProducts db query
        = (search_products db "panel").take 5 := by
      rw [relevantProducts, hfound, dedupeBySku_double _ hLnd]
    have hdigest : search_relevant_products db query
        = strJoin ((relevantProducts db query).map renderProduct) := by
      simp only [search_relevant_products]
      rw [hfound]
      simp [hempty]
    have hne : search_relevant_products db query ≠ "" := by
      obtain ⟨a, t, hLeq⟩ := List.exists_cons_of_ne_nil hLne
      rw [hdigest, hrel, hLeq]
      have h1 : strJoin (((a :: t).take 5).map renderProduct)
          = renderProduct a ++ strJoin ((t.take 4).map renderProduct) := rfl
      rw [h1]
      intro heq
      have h2 := congrArg String.length heq
      rw [String.length_append] at h2
      have h3 := renderProduct_length_pos a
      have h0 : ("" : String).length = 0 := rfl
      rw [h0] at h2
      omega
    refine ⟨hne, hrel, ?_, ?_, ?_, ?_⟩
    · intro sp hsp
      rw [hrel] at hsp
      exact mem_search_products_panel.1 (List.mem_of_mem_take hsp)
    · rw [hrel]
      exact List.Nodup.sublist
        (List.Sublist.map Prod.fst (List.take_sublist 5 _)) hLnd
    · rw [hrel]
      exact List.length_take_le 5 _
    · intro hle sp hsp hhit
      rw [hrel, List.take_of_length_le hle]
      exact mem_search_products_panel.2 ⟨hsp, hhit⟩
  · rintro ⟨hnokw, hnofb⟩
    have hkm0 : keywordMatches db query = [] := by
      rw [keywordMatches]
      exact foldl_keyword_nil db query keywordList [] hnokw
    have hfb : fallbackMatches db query = [] := by
      rw [fallbackMatches, List.filter_eq_nil_iff]
      intro sp hsp hany
      obtain ⟨w, hw, hcond⟩ := List.any_eq_true.1 hany
      rw [Bool.and_eq_true, decide_eq_true_eq] at hcond
      have hfalse := hnofb sp hsp w hw hcond.1
      exact absurd (hfalse ▸ hcond.2) (by decide)
    have hfound0 : foundProducts db query = [] := by
      simp only [foundProducts, hkm0]
      simp [hfb]
    simp only [search_relevant_products, hfound0]
    simp

/-- Witness for C6: the query `"PANEL"` against a two-product catalog yields
a non-empty digest; the keyword-free, fallback-free query `"zzz"` yields the
empty string. -/
theorem product_digest_panel_witness :
    search_relevant_products productDBW "PANEL" ≠ "" ∧
    search_relevant_products productDBW "zzz" = "" :=
  ⟨((product_digest_panel productDBW "PANEL").1
      ⟨by decide, by decide, by decide,
       ⟨("SKU1", productW), by decide, by decide⟩⟩).1,
   (product_digest_panel productDBW "zzz").2 ⟨by decide, by decide⟩⟩

end BrimCS
